import Mathlib

/-!
Shallow embedding of the `Zoom` component of react-native-zoom-anything
(src/Zoom.tsx as shipped in the repository README). The component is a
gesture-driven 2D transform engine: pinch-to-zoom, pan with inertia, and
double-tap zoom cycling, all over a committed/live transform state.

Numbers are modelled as rationals. The mutable `useRef` cells of the
component become fields of `ZoomState`; each gesture callback becomes a
state-to-state function. `Animated` values (`scale`, `translateX`,
`translateY`) are the live fields; `setValue` writes them directly, while
starting an `Animated.parallel` is recorded in `lastParallel` together
with its target values (the animation itself only drives live values over
time, which no property here depends on, so live values stay at their last
directly written value while an animation is recorded as in flight).
-/

namespace Zoom

/-- `Math.min` on rationals, written as an executable conditional. -/
def mathMin (a b : ℚ) : ℚ :=
  if a ≤ b then a else b

/-- `Math.max` on rationals, written as an executable conditional. -/
def mathMax (a b : ℚ) : ℚ :=
  if a ≤ b then b else a

/-- `Math.abs` on rationals, written as an executable conditional. -/
def mathAbs (a : ℚ) : ℚ :=
  if a < 0 then -a else a

lemma mathMin_eq (a b : ℚ) : mathMin a b = min a b :=
  (min_def a b).symm

lemma mathMax_eq (a b : ℚ) : mathMax a b = max a b :=
  (max_def a b).symm

lemma mathAbs_eq (a : ℚ) : mathAbs a = |a| := by
  unfold mathAbs
  split
  · rw [abs_of_neg (by assumption)]
  · rw [abs_of_nonneg (by linarith [not_lt.mp (by assumption)])]

/-- The `clamp` helper of Zoom.tsx: `Math.min(Math.max(value, min), max)`. -/
def clamp (value lo hi : ℚ) : ℚ :=
  mathMin (mathMax value lo) hi

lemma clamp_eq (value lo hi : ℚ) : clamp value lo hi = min (max value lo) hi := by
  rw [clamp, mathMin_eq, mathMax_eq]

/-- `const EPS = 1e-3`. -/
def EPS : ℚ := 1 / 1000

/-- `const ANIM_DURATION_MS = 200`. -/
def ANIM_DURATION_MS : ℚ := 200

/-- `const INERTIA_PROJECTION_MS = 300`. -/
def INERTIA_PROJECTION_MS : ℚ := 300

/-- Construction-time configuration: the `minZoom` / `maxZoom` props. -/
structure Config where
  minZoom : ℚ
  maxZoom : ℚ
  deriving DecidableEq

/-- Targets of an `Animated.parallel` stored in `lastParallel`: the pan
inertia animation drives only the two translates, the double-tap animation
additionally drives the scale. -/
structure AnimTargets where
  scaleTarget : Option ℚ
  translateXTarget : ℚ
  translateYTarget : ℚ
  deriving DecidableEq

/-- All mutable refs and Animated values of the component. -/
structure ZoomState where
  committedScale : ℚ
  committedTranslateX : ℚ
  committedTranslateY : ℚ
  liveScale : ℚ
  liveTranslateX : ℚ
  liveTranslateY : ℚ
  containerWidthPx : ℚ
  containerHeightPx : ℚ
  contentWidthPx : ℚ
  contentHeightPx : ℚ
  panStartTranslateX : ℚ
  panStartTranslateY : ℚ
  lastParallel : Option AnimTargets
  deriving DecidableEq

/-- Result record of `computePanBounds`. -/
structure PanBounds where
  minX : ℚ
  maxX : ℚ
  minY : ℚ
  maxY : ℚ
  deriving DecidableEq

/-- `computePanBounds(scaleValue)`: reads the four size refs and returns the
symmetric translation bounds at the given scale. -/
def computePanBounds (s : ZoomState) (scaleValue : ℚ) : PanBounds :=
  let containerWidth := s.containerWidthPx
  let containerHeight := s.containerHeightPx
  let contentWidthScaled := s.contentWidthPx * scaleValue
  let contentHeightScaled := s.contentHeightPx * scaleValue
  let maxPanX := mathMax 0 ((contentWidthScaled - containerWidth) / 2)
  let maxPanY := mathMax 0 ((contentHeightScaled - containerHeight) / 2)
  { minX := -maxPanX, maxX := maxPanX, minY := -maxPanY, maxY := maxPanY }

/-- `stopAnimations()`: stop and drop the last parallel animation. -/
def stopAnimations (s : ZoomState) : ZoomState :=
  { s with lastParallel := none }

/-- `onContainerLayout`: store the container size, re-clamp the committed
translate into the bounds at the committed scale, and write the clamped
values to both the committed refs and the live Animated values. -/
def onContainerLayout (w h : ℚ) (s : ZoomState) : ZoomState :=
  let s1 := { s with containerWidthPx := w, containerHeightPx := h }
  let b := computePanBounds s1 s1.committedScale
  let clampedX := clamp s1.committedTranslateX b.minX b.maxX
  let clampedY := clamp s1.committedTranslateY b.minY b.maxY
  { s1 with
    committedTranslateX := clampedX
    committedTranslateY := clampedY
    liveTranslateX := clampedX
    liveTranslateY := clampedY }

/-- `onContentLayout`: same as `onContainerLayout` but stores the content
size. -/
def onContentLayout (w h : ℚ) (s : ZoomState) : ZoomState :=
  let s1 := { s with contentWidthPx := w, contentHeightPx := h }
  let b := computePanBounds s1 s1.committedScale
  let clampedX := clamp s1.committedTranslateX b.minX b.maxX
  let clampedY := clamp s1.committedTranslateY b.minY b.maxY
  { s1 with
    committedTranslateX := clampedX
    committedTranslateY := clampedY
    liveTranslateX := clampedX
    liveTranslateY := clampedY }

/-- `pinchGesture.onStart`: ignored unless exactly two pointers; otherwise
stops animations. -/
def pinchOnStart (pointers : ℕ) (s : ZoomState) : ZoomState :=
  if pointers = 2 then stopAnimations s else s

/-- `pinchGesture.onUpdate`: ignored unless exactly two pointers; otherwise
writes the clamped scale and the re-clamped committed translate to the live
values. -/
def pinchOnUpdate (cfg : Config) (pointers : ℕ) (factor : ℚ) (s : ZoomState) :
    ZoomState :=
  if pointers = 2 then
    let clampedScale := clamp (s.committedScale * factor) cfg.minZoom cfg.maxZoom
    let b := computePanBounds s clampedScale
    { s with
      liveScale := clampedScale
      liveTranslateX := clamp s.committedTranslateX b.minX b.maxX
      liveTranslateY := clamp s.committedTranslateY b.minY b.maxY }
  else s

/-- `pinchGesture.onEnd`: commits the clamped scale and the re-clamped
translate (no pointer-count guard in the source). -/
def pinchOnEnd (cfg : Config) (factor : ℚ) (s : ZoomState) : ZoomState :=
  let clampedScale := clamp (s.committedScale * factor) cfg.minZoom cfg.maxZoom
  let b := computePanBounds s clampedScale
  let clampedX := clamp s.committedTranslateX b.minX b.maxX
  let clampedY := clamp s.committedTranslateY b.minY b.maxY
  { s with
    committedScale := clampedScale
    liveScale := clampedScale
    committedTranslateX := clampedX
    committedTranslateY := clampedY
    liveTranslateX := clampedX
    liveTranslateY := clampedY }

/-- `panGesture.onBegin`: snapshot the committed translate as the pan
baseline (the source does not stop animations here). -/
def panOnBegin (s : ZoomState) : ZoomState :=
  { s with
    panStartTranslateX := s.committedTranslateX
    panStartTranslateY := s.committedTranslateY }

/-- `panGesture.onUpdate`: ignored at or below `minZoom + EPS`; otherwise
writes the clamped baseline-plus-delta to the live translates. -/
def panOnUpdate (cfg : Config) (translationX translationY : ℚ)
    (s : ZoomState) : ZoomState :=
  if s.committedScale ≤ cfg.minZoom + EPS then s
  else
    let b := computePanBounds s s.committedScale
    { s with
      liveTranslateX := clamp (s.panStartTranslateX + translationX) b.minX b.maxX
      liveTranslateY := clamp (s.panStartTranslateY + translationY) b.minY b.maxY }

/-- `panGesture.onEnd`: at or below `minZoom + EPS` snap both committed and
live translate to the origin; otherwise clamp the release point, project it
by velocity over `INERTIA_PROJECTION_MS`, clamp, commit the target and start
the inertia animation toward it. -/
def panOnEnd (cfg : Config) (translationX translationY velocityX velocityY : ℚ)
    (s : ZoomState) : ZoomState :=
  if s.committedScale ≤ cfg.minZoom + EPS then
    { s with
      committedTranslateX := 0
      committedTranslateY := 0
      liveTranslateX := 0
      liveTranslateY := 0 }
  else
    let b := computePanBounds s s.committedScale
    let releaseX := clamp (s.panStartTranslateX + translationX) b.minX b.maxX
    let releaseY := clamp (s.panStartTranslateY + translationY) b.minY b.maxY
    let dt := INERTIA_PROJECTION_MS / 1000
    let projectedX := releaseX + velocityX * dt
    let projectedY := releaseY + velocityY * dt
    let targetX := clamp projectedX b.minX b.maxX
    let targetY := clamp projectedY b.minY b.maxY
    { s with
      committedTranslateX := targetX
      committedTranslateY := targetY
      lastParallel := some ⟨none, targetX, targetY⟩ }

/-- `getTargetScale()`: the double-tap scale cycle. -/
def getTargetScale (cfg : Config) (s : ZoomState) : ℚ :=
  let midScale := (cfg.minZoom + cfg.maxZoom) / 2
  if mathAbs (s.committedScale - cfg.minZoom) < EPS then midScale
  else if s.committedScale < cfg.maxZoom - EPS then cfg.maxZoom
  else cfg.minZoom

/-- `doubleTapGesture.onEnd`: ignored on recognition failure; otherwise stop
animations, pick the target scale, preserve the focal point (tap position
relative to container center, defaulting to the center when absent), clamp
into the bounds at the target scale, commit, and start the snap animation. -/
def doubleTapOnEnd (cfg : Config) (success : Bool) (x y : Option ℚ)
    (s0 : ZoomState) : ZoomState :=
  if success then
    let s := stopAnimations s0
    let targetScale := getTargetScale cfg s
    let containerW := s.containerWidthPx
    let containerH := s.containerHeightPx
    let tapXFromCenter := x.getD (containerW / 2) - containerW / 2
    let tapYFromCenter := y.getD (containerH / 2) - containerH / 2
    let currentScale := s.committedScale
    let ratio := targetScale / currentScale
    let targetTx := tapXFromCenter - ratio * (tapXFromCenter - s.committedTranslateX)
    let targetTy := tapYFromCenter - ratio * (tapYFromCenter - s.committedTranslateY)
    let b := computePanBounds s targetScale
    let clampedTx := clamp targetTx b.minX b.maxX
    let clampedTy := clamp targetTy b.minY b.maxY
    { s with
      committedScale := targetScale
      committedTranslateX := clampedTx
      committedTranslateY := clampedTy
      lastParallel := some ⟨some targetScale, clampedTx, clampedTy⟩ }
  else s0

/-- One event delivered to the component: a layout report or a gesture
callback, with the payload fields the handlers read. -/
inductive Event where
  | containerLayout (w h : ℚ)
  | contentLayout (w h : ℚ)
  | pinchStart (pointers : ℕ)
  | pinchUpdate (pointers : ℕ) (factor : ℚ)
  | pinchEnd (pointers : ℕ) (factor : ℚ)
  | panBegin
  | panUpdate (translationX translationY : ℚ)
  | panEnd (translationX translationY velocityX velocityY : ℚ)
  | doubleTap (success : Bool) (x y : Option ℚ)
  deriving DecidableEq

/-- Dispatch one event to its handler. The pinch end handler ignores the
event's pointer count, exactly as the source does. -/
def step (cfg : Config) (s : ZoomState) : Event → ZoomState
  | .containerLayout w h => onContainerLayout w h s
  | .contentLayout w h => onContentLayout w h s
  | .pinchStart pointers => pinchOnStart pointers s
  | .pinchUpdate pointers factor => pinchOnUpdate cfg pointers factor s
  | .pinchEnd _pointers factor => pinchOnEnd cfg factor s
  | .panBegin => panOnBegin s
  | .panUpdate tx ty => panOnUpdate cfg tx ty s
  | .panEnd tx ty vx vy => panOnEnd cfg tx ty vx vy s
  | .doubleTap success x y => doubleTapOnEnd cfg success x y s

/-- The mount-time state: `scale = minZoom`, translates at the origin, all
size refs zero, no animation in flight. -/
def initState (cfg : Config) : ZoomState :=
  { committedScale := cfg.minZoom
    committedTranslateX := 0
    committedTranslateY := 0
    liveScale := cfg.minZoom
    liveTranslateX := 0
    liveTranslateY := 0
    containerWidthPx := 0
    containerHeightPx := 0
    contentWidthPx := 0
    contentHeightPx := 0
    panStartTranslateX := 0
    panStartTranslateY := 0
    lastParallel := none }

/-- Deliver a list of events starting from the mount-time state. -/
def run (cfg : Config) (events : List Event) : ZoomState :=
  events.foldl (step cfg) (initState cfg)

/-- The committed-state invariant: committed scale within the zoom bounds and
committed translate within the pan bounds derived from the stored sizes at
the committed scale. -/
def Invariant (cfg : Config) (s : ZoomState) : Prop :=
  cfg.minZoom ≤ s.committedScale ∧ s.committedScale ≤ cfg.maxZoom ∧
  (computePanBounds s s.committedScale).minX ≤ s.committedTranslateX ∧
  s.committedTranslateX ≤ (computePanBounds s s.committedScale).maxX ∧
  (computePanBounds s s.committedScale).minY ≤ s.committedTranslateY ∧
  s.committedTranslateY ≤ (computePanBounds s s.committedScale).maxY

instance (cfg : Config) (s : ZoomState) : Decidable (Invariant cfg s) := by
  unfold Invariant
  infer_instance

/-! Helper lemmas about `clamp` and `computePanBounds`. -/

lemma clamp_le (value lo hi : ℚ) : clamp value lo hi ≤ hi := by
  rw [clamp_eq]
  exact min_le_right _ _

lemma le_clamp (value lo hi : ℚ) (h : lo ≤ hi) : lo ≤ clamp value lo hi := by
  rw [clamp_eq]
  exact le_min (le_max_right value lo) h

lemma clamp_eq_self (value lo hi : ℚ) (h1 : lo ≤ value) (h2 : value ≤ hi) :
    clamp value lo hi = value := by
  rw [clamp_eq, max_eq_left h1, min_eq_left h2]

lemma clamp_idem (value lo hi : ℚ) (h : lo ≤ hi) :
    clamp (clamp value lo hi) lo hi = clamp value lo hi :=
  clamp_eq_self _ _ _ (le_clamp value lo hi h) (clamp_le value lo hi)

lemma computePanBounds_minX_nonpos (s : ZoomState) (v : ℚ) :
    (computePanBounds s v).minX ≤ 0 := by
  simp [computePanBounds, mathMax_eq]

lemma computePanBounds_maxX_nonneg (s : ZoomState) (v : ℚ) :
    0 ≤ (computePanBounds s v).maxX := by
  simp [computePanBounds, mathMax_eq]

lemma computePanBounds_minY_nonpos (s : ZoomState) (v : ℚ) :
    (computePanBounds s v).minY ≤ 0 := by
  simp [computePanBounds, mathMax_eq]

lemma computePanBounds_maxY_nonneg (s : ZoomState) (v : ℚ) :
    0 ≤ (computePanBounds s v).maxY := by
  simp [computePanBounds, mathMax_eq]

lemma computePanBounds_minX_le_maxX (s : ZoomState) (v : ℚ) :
    (computePanBounds s v).minX ≤ (computePanBounds s v).maxX :=
  le_trans (computePanBounds_minX_nonpos s v) (computePanBounds_maxX_nonneg s v)

lemma computePanBounds_minY_le_maxY (s : ZoomState) (v : ℚ) :
    (computePanBounds s v).minY ≤ (computePanBounds s v).maxY :=
  le_trans (computePanBounds_minY_nonpos s v) (computePanBounds_maxY_nonneg s v)

/-- The bounds only depend on the four size fields of the state. -/
lemma computePanBounds_congr (s t : ZoomState) (v : ℚ)
    (hcw : t.containerWidthPx = s.containerWidthPx)
    (hch : t.containerHeightPx = s.containerHeightPx)
    (hw : t.contentWidthPx = s.contentWidthPx)
    (hh : t.contentHeightPx = s.contentHeightPx) :
    computePanBounds t v = computePanBounds s v := by
  simp [computePanBounds, hcw, hch, hw, hh]

/-- The double-tap target scale stays within the zoom range. -/
lemma getTargetScale_mem (cfg : Config) (s : ZoomState)
    (h : cfg.minZoom ≤ cfg.maxZoom) :
    cfg.minZoom ≤ getTargetScale cfg s ∧ getTargetScale cfg s ≤ cfg.maxZoom := by
  unfold getTargetScale
  dsimp only
  split
  · constructor <;> linarith
  · split
    · constructor <;> linarith
    · constructor <;> linarith

/-- The mount-time state satisfies the committed-state invariant. -/
lemma invariant_init (cfg : Config) (h : cfg.minZoom ≤ cfg.maxZoom) :
    Invariant cfg (initState cfg) := by
  refine ⟨le_refl _, h, ?_, ?_, ?_, ?_⟩ <;> simp [initState, computePanBounds, mathMax_eq]

/-- Every event preserves the committed-state invariant. -/
lemma step_invariant (cfg : Config) (hcfg : cfg.minZoom ≤ cfg.maxZoom)
    (s : ZoomState) (e : Event) (hs : Invariant cfg s) :
    Invariant cfg (step cfg s e) := by
  obtain ⟨h1, h2, h3, h4, h5, h6⟩ := hs
  cases e with
  | containerLayout w hgt =>
      refine ⟨h1, h2, ?_, ?_, ?_, ?_⟩
      · exact le_clamp _ _ _ (computePanBounds_minX_le_maxX _ _)
      · exact clamp_le _ _ _
      · exact le_clamp _ _ _ (computePanBounds_minY_le_maxY _ _)
      · exact clamp_le _ _ _
  | contentLayout w hgt =>
      refine ⟨h1, h2, ?_, ?_, ?_, ?_⟩
      · exact le_clamp _ _ _ (computePanBounds_minX_le_maxX _ _)
      · exact clamp_le _ _ _
      · exact le_clamp _ _ _ (computePanBounds_minY_le_maxY _ _)
      · exact clamp_le _ _ _
  | pinchStart pointers =>
      simp only [step]
      unfold pinchOnStart
      split
      · exact ⟨h1, h2, h3, h4, h5, h6⟩
      · exact ⟨h1, h2, h3, h4, h5, h6⟩
  | pinchUpdate pointers factor =>
      simp only [step]
      unfold pinchOnUpdate
      split
      · exact ⟨h1, h2, h3, h4, h5, h6⟩
      · exact ⟨h1, h2, h3, h4, h5, h6⟩
  | pinchEnd pointers factor =>
      refine ⟨?_, ?_, ?_, ?_, ?_, ?_⟩
      · exact le_clamp _ _ _ hcfg
      · exact clamp_le _ _ _
      · exact le_clamp _ _ _ (computePanBounds_minX_le_maxX _ _)
      · exact clamp_le _ _ _
      · exact le_clamp _ _ _ (computePanBounds_minY_le_maxY _ _)
      · exact clamp_le _ _ _
  | panBegin =>
      exact ⟨h1, h2, h3, h4, h5, h6⟩
  | panUpdate tx ty =>
      simp only [step]
      unfold panOnUpdate
      split
      · exact ⟨h1, h2, h3, h4, h5, h6⟩
      · exact ⟨h1, h2, h3, h4, h5, h6⟩
  | panEnd tx ty vx vy =>
      simp only [step]
      unfold panOnEnd
      split
      · refine ⟨h1, h2, ?_, ?_, ?_, ?_⟩
        · exact computePanBounds_minX_nonpos _ _
        · exact computePanBounds_maxX_nonneg _ _
        · exact computePanBounds_minY_nonpos _ _
        · exact computePanBounds_maxY_nonneg _ _
      · refine ⟨h1, h2, ?_, ?_, ?_, ?_⟩
        · exact le_clamp _ _ _ (computePanBounds_minX_le_maxX _ _)
        · exact clamp_le _ _ _
        · exact le_clamp _ _ _ (computePanBounds_minY_le_maxY _ _)
        · exact clamp_le _ _ _
  | doubleTap success x y =>
      simp only [step]
      unfold doubleTapOnEnd
      split
      · refine ⟨?_, ?_, ?_, ?_, ?_, ?_⟩
        · exact (getTargetScale_mem cfg _ hcfg).1
        · exact (getTargetScale_mem cfg _ hcfg).2
        · exact le_clamp _ _ _ (computePanBounds_minX_le_maxX _ _)
        · exact clamp_le _ _ _
        · exact le_clamp _ _ _ (computePanBounds_minY_le_maxY _ _)
        · exact clamp_le _ _ _
      · exact ⟨h1, h2, h3, h4, h5, h6⟩

/-- Running any event list from any invariant-satisfying state preserves the
invariant. -/
lemma foldl_invariant (cfg : Config) (hcfg : cfg.minZoom ≤ cfg.maxZoom)
    (events : List Event) :
    ∀ s : ZoomState, Invariant cfg s →
      Invariant cfg (events.foldl (step cfg) s) := by
  induction events with
  | nil => intro s hs; exact hs
  | cons e rest ih =>
      intro s hs
      exact ih (step cfg s e) (step_invariant cfg hcfg s e hs)

/-- A symmetric pan bound is nonempty: its lower end is at most its upper
end, in the raw form the bounds take after unfolding `computePanBounds`. -/
lemma neg_mathMax_zero_le (e : ℚ) : -(mathMax 0 e) ≤ mathMax 0 e := by
  rw [mathMax_eq]
  have h := le_max_left (0 : ℚ) e
  linarith

/-- The getter of the committed scale after a successful double-tap is the
target-scale cycle evaluated at the pre-tap state. -/
lemma doubleTap_committedScale (cfg : Config) (x y : Option ℚ) (t : ZoomState) :
    (doubleTapOnEnd cfg true x y t).committedScale = getTargetScale cfg t := rfl

lemma getTargetScale_eq_mid (cfg : Config) (s : ZoomState)
    (h : mathAbs (s.committedScale - cfg.minZoom) < EPS) :
    getTargetScale cfg s = (cfg.minZoom + cfg.maxZoom) / 2 := by
  unfold getTargetScale
  dsimp only
  rw [if_pos h]

lemma getTargetScale_eq_max (cfg : Config) (s : ZoomState)
    (h1 : ¬ mathAbs (s.committedScale - cfg.minZoom) < EPS)
    (h2 : s.committedScale < cfg.maxZoom - EPS) :
    getTargetScale cfg s = cfg.maxZoom := by
  unfold getTargetScale
  dsimp only
  rw [if_neg h1, if_pos h2]

lemma getTargetScale_eq_min (cfg : Config) (s : ZoomState)
    (h1 : ¬ mathAbs (s.committedScale - cfg.minZoom) < EPS)
    (h2 : ¬ s.committedScale < cfg.maxZoom - EPS) :
    getTargetScale cfg s = cfg.minZoom := by
  unfold getTargetScale
  dsimp only
  rw [if_neg h1, if_neg h2]

/-- C1: for every state reachable from the initial state by any sequence of
layout reports, pinch, pan and double-tap events, assuming
`maxZoom > minZoom`, the committed scale lies in `[minZoom, maxZoom]` and
the committed translate lies within the pan bounds computed from the stored
container/content sizes at the committed scale. -/
theorem committed_invariant_reachable (cfg : Config)
    (h : cfg.minZoom < cfg.maxZoom) (events : List Event) :
    Invariant cfg (run cfg events) :=
  foldl_invariant cfg h.le events (initState cfg) (invariant_init cfg h.le)

/-- Witness for C1 at a concrete configuration and event sequence. -/
theorem committed_invariant_reachable_witness :
    ((⟨1, 5⟩ : Config).minZoom < (⟨1, 5⟩ : Config).maxZoom) ∧
    Invariant ⟨1, 5⟩ (run ⟨1, 5⟩
      [Event.containerLayout 300 300, Event.contentLayout 300 300,
       Event.doubleTap true (some 10) (some 20),
       Event.panBegin, Event.panEnd 500 0 100 0]) :=
  ⟨by norm_num, committed_invariant_reachable ⟨1, 5⟩ (by norm_num) _⟩

/-- C2 counterexample: with `minZoom = 1` and `maxZoom = 1001/1000`
(`maxZoom > minZoom` holds), the second successful double-tap from the
initial state leaves the committed scale at the mid scale `2001/2000`, not
at `maxZoom`, because the mid scale is still within `EPS` of `minZoom`. -/
theorem doubleTap_cycle_counterexample :
    (run ⟨1, 1001 / 1000⟩ [Event.doubleTap true none none,
      Event.doubleTap true none none]).committedScale ≠
      (⟨1, 1001 / 1000⟩ : Config).maxZoom := by
  norm_num [run, step, doubleTapOnEnd, initState, stopAnimations, getTargetScale,
    computePanBounds, clamp, mathMin, mathMax, mathAbs, EPS]

/-- C2 (amended): on every successful double-tap the new committed scale is
`mid` if `|s - minZoom| < EPS`, else `maxZoom` if `s < maxZoom - EPS`, else
`minZoom`; and when additionally `maxZoom - minZoom > 2·EPS`, three
successive double-taps starting from `committedScale = minZoom` yield
`mid`, then `maxZoom`, then `minZoom`. -/
theorem doubleTap_scale_rule_and_cycle (cfg : Config) (s : ZoomState)
    (hrange : cfg.minZoom + 2 * EPS < cfg.maxZoom)
    (hstart : s.committedScale = cfg.minZoom) :
    (∀ (t : ZoomState) (x y : Option ℚ),
      (doubleTapOnEnd cfg true x y t).committedScale =
        if |t.committedScale - cfg.minZoom| < EPS then
          (cfg.minZoom + cfg.maxZoom) / 2
        else if t.committedScale < cfg.maxZoom - EPS then cfg.maxZoom
        else cfg.minZoom) ∧
    ∀ (x1 y1 x2 y2 x3 y3 : Option ℚ),
      (doubleTapOnEnd cfg true x1 y1 s).committedScale =
        (cfg.minZoom + cfg.maxZoom) / 2 ∧
      (doubleTapOnEnd cfg true x2 y2
        (doubleTapOnEnd cfg true x1 y1 s)).committedScale = cfg.maxZoom ∧
      (doubleTapOnEnd cfg true x3 y3 (doubleTapOnEnd cfg true x2 y2
        (doubleTapOnEnd cfg true x1 y1 s))).committedScale = cfg.minZoom := by
  have hE : (0 : ℚ) < EPS := by norm_num [EPS]
  constructor
  · intro t x y
    rw [doubleTap_committedScale]
    unfold getTargetScale
    rw [mathAbs_eq]
  · intro x1 y1 x2 y2 x3 y3
    have h1 : (doubleTapOnEnd cfg true x1 y1 s).committedScale =
        (cfg.minZoom + cfg.maxZoom) / 2 := by
      rw [doubleTap_committedScale]
      apply getTargetScale_eq_mid
      rw [hstart, mathAbs_eq]
      simpa using hE
    have h2 : (doubleTapOnEnd cfg true x2 y2
        (doubleTapOnEnd cfg true x1 y1 s)).committedScale = cfg.maxZoom := by
      rw [doubleTap_committedScale]
      apply getTargetScale_eq_max
      · rw [h1, mathAbs_eq, abs_of_nonneg (by linarith)]
        intro hcon
        linarith
      · rw [h1]
        linarith
    have h3 : (doubleTapOnEnd cfg true x3 y3 (doubleTapOnEnd cfg true x2 y2
        (doubleTapOnEnd cfg true x1 y1 s))).committedScale = cfg.minZoom := by
      rw [doubleTap_committedScale]
      apply getTargetScale_eq_min
      · rw [h2, mathAbs_eq, abs_of_nonneg (by linarith)]
        intro hcon
        linarith
      · rw [h2]
        intro hcon
        linarith
    exact ⟨h1, h2, h3⟩

/-- Witness for C2 (amended) at the default configuration. -/
theorem doubleTap_scale_rule_and_cycle_witness :
    ((⟨1, 5⟩ : Config).minZoom + 2 * EPS < (⟨1, 5⟩ : Config).maxZoom) ∧
    ((initState ⟨1, 5⟩).committedScale = (⟨1, 5⟩ : Config).minZoom) ∧
    ((doubleTapOnEnd ⟨1, 5⟩ true none none (initState ⟨1, 5⟩)).committedScale =
        ((⟨1, 5⟩ : Config).minZoom + (⟨1, 5⟩ : Config).maxZoom) / 2 ∧
      (doubleTapOnEnd ⟨1, 5⟩ true none none
        (doubleTapOnEnd ⟨1, 5⟩ true none none (initState ⟨1, 5⟩))).committedScale =
        (⟨1, 5⟩ : Config).maxZoom ∧
      (doubleTapOnEnd ⟨1, 5⟩ true none none (doubleTapOnEnd ⟨1, 5⟩ true none none
        (doubleTapOnEnd ⟨1, 5⟩ true none none (initState ⟨1, 5⟩)))).committedScale =
        (⟨1, 5⟩ : Config).minZoom) :=
  ⟨by norm_num [EPS], rfl,
    (doubleTap_scale_rule_and_cycle ⟨1, 5⟩ (initState ⟨1, 5⟩)
      (by norm_num [EPS]) rfl).2 none none none none none none⟩

/-- C3: on every successful double-tap, with tap offset measured from the
container center (defaulting to the center, hence offset 0, when the tap
position is unavailable) and `ratio = targetScale / committedScale`, the
committed translate per axis becomes
`clamp(t - ratio * (t - committedTranslate))` over the bounds at the target
scale, committed immediately; a tap at the container center has offset 0 and
its pre-clamp target translate is `ratio * committedTranslate`. -/
theorem doubleTap_focal_translate (cfg : Config) (s : ZoomState)
    (x y : Option ℚ) (_hpos : 0 < s.committedScale) :
    ((doubleTapOnEnd cfg true x y s).committedTranslateX =
      clamp ((x.getD (s.containerWidthPx / 2) - s.containerWidthPx / 2) -
          (getTargetScale cfg s / s.committedScale) *
            ((x.getD (s.containerWidthPx / 2) - s.containerWidthPx / 2) -
              s.committedTranslateX))
        (computePanBounds s (getTargetScale cfg s)).minX
        (computePanBounds s (getTargetScale cfg s)).maxX) ∧
    ((doubleTapOnEnd cfg true x y s).committedTranslateY =
      clamp ((y.getD (s.containerHeightPx / 2) - s.containerHeightPx / 2) -
          (getTargetScale cfg s / s.committedScale) *
            ((y.getD (s.containerHeightPx / 2) - s.containerHeightPx / 2) -
              s.committedTranslateY))
        (computePanBounds s (getTargetScale cfg s)).minY
        (computePanBounds s (getTargetScale cfg s)).maxY) ∧
    (x = none → x.getD (s.containerWidthPx / 2) - s.containerWidthPx / 2 = 0) ∧
    (x = some (s.containerWidthPx / 2) →
      (x.getD (s.containerWidthPx / 2) - s.containerWidthPx / 2) -
          (getTargetScale cfg s / s.committedScale) *
            ((x.getD (s.containerWidthPx / 2) - s.containerWidthPx / 2) -
              s.committedTranslateX) =
        (getTargetScale cfg s / s.committedScale) * s.committedTranslateX) := by
  refine ⟨rfl, rfl, ?_, ?_⟩
  · intro hx
    subst hx
    simp
  · intro hx
    subst hx
    simp

/-- Witness for C3 at a concrete reachable state with committed scale 1. -/
theorem doubleTap_focal_translate_witness :
    (0 < (run ⟨1, 5⟩ [Event.containerLayout 300 300,
        Event.contentLayout 300 300]).committedScale) ∧
    ((doubleTapOnEnd ⟨1, 5⟩ true (some 200) (some 100)
        (run ⟨1, 5⟩ [Event.containerLayout 300 300,
          Event.contentLayout 300 300])).committedTranslateX =
      clamp (((some (200 : ℚ)).getD ((run ⟨1, 5⟩ [Event.containerLayout 300 300,
            Event.contentLayout 300 300]).containerWidthPx / 2) -
          (run ⟨1, 5⟩ [Event.containerLayout 300 300,
            Event.contentLayout 300 300]).containerWidthPx / 2) -
          (getTargetScale ⟨1, 5⟩ (run ⟨1, 5⟩ [Event.containerLayout 300 300,
              Event.contentLayout 300 300]) /
            (run ⟨1, 5⟩ [Event.containerLayout 300 300,
              Event.contentLayout 300 300]).committedScale) *
            ((((some (200 : ℚ)).getD ((run ⟨1, 5⟩ [Event.containerLayout 300 300,
                Event.contentLayout 300 300]).containerWidthPx / 2)) -
              (run ⟨1, 5⟩ [Event.containerLayout 300 300,
                Event.contentLayout 300 300]).containerWidthPx / 2) -
              (run ⟨1, 5⟩ [Event.containerLayout 300 300,
                Event.contentLayout 300 300]).committedTranslateX))
        (computePanBounds (run ⟨1, 5⟩ [Event.containerLayout 300 300,
            Event.contentLayout 300 300])
          (getTargetScale ⟨1, 5⟩ (run ⟨1, 5⟩ [Event.containerLayout 300 300,
            Event.contentLayout 300 300]))).minX
        (computePanBounds (run ⟨1, 5⟩ [Event.containerLayout 300 300,
            Event.contentLayout 300 300])
          (getTargetScale ⟨1, 5⟩ (run ⟨1, 5⟩ [Event.containerLayout 300 300,
            Event.contentLayout 300 300]))).maxX) :=
  ⟨by norm_num [run, step, onContainerLayout, onContentLayout, initState,
      computePanBounds, clamp, mathMin, mathMax],
    (doubleTap_focal_translate ⟨1, 5⟩ _ (some 200) (some 100)
      (by norm_num [run, step, onContainerLayout, onContentLayout, initState,
        computePanBounds, clamp, mathMin, mathMax])).1⟩

/-- C4: a pinch update with exactly two pointers sets the live scale to
`clamp(committedScale * factor, minZoom, maxZoom)`, recomputes the bounds at
that live scale and writes the re-clamped committed translate to the live
translate, leaving the committed state untouched; factors are not compounded
across successive updates; a pinch end commits the same computation; and with
`minZoom = 1`, `maxZoom = 5` and committed scale 1, a pinch with factor 10
commits scale 5. -/
theorem pinch_update_end_formula (cfg : Config) (s : ZoomState) (factor : ℚ) :
    ((pinchOnUpdate cfg 2 factor s).liveScale =
      clamp (s.committedScale * factor) cfg.minZoom cfg.maxZoom) ∧
    ((pinchOnUpdate cfg 2 factor s).liveTranslateX =
      clamp s.committedTranslateX
        (computePanBounds s
          (clamp (s.committedScale * factor) cfg.minZoom cfg.maxZoom)).minX
        (computePanBounds s
          (clamp (s.committedScale * factor) cfg.minZoom cfg.maxZoom)).maxX) ∧
    ((pinchOnUpdate cfg 2 factor s).liveTranslateY =
      clamp s.committedTranslateY
        (computePanBounds s
          (clamp (s.committedScale * factor) cfg.minZoom cfg.maxZoom)).minY
        (computePanBounds s
          (clamp (s.committedScale * factor) cfg.minZoom cfg.maxZoom)).maxY) ∧
    ((pinchOnUpdate cfg 2 factor s).committedScale = s.committedScale) ∧
    ((pinchOnUpdate cfg 2 factor s).committedTranslateX = s.committedTranslateX) ∧
    ((pinchOnUpdate cfg 2 factor s).committedTranslateY = s.committedTranslateY) ∧
    (∀ f1 : ℚ, (pinchOnUpdate cfg 2 factor (pinchOnUpdate cfg 2 f1 s)).liveScale =
      clamp (s.committedScale * factor) cfg.minZoom cfg.maxZoom) ∧
    ((pinchOnEnd cfg factor s).committedScale =
      clamp (s.committedScale * factor) cfg.minZoom cfg.maxZoom) ∧
    ((pinchOnEnd cfg factor s).committedTranslateX =
      clamp s.committedTranslateX
        (computePanBounds s
          (clamp (s.committedScale * factor) cfg.minZoom cfg.maxZoom)).minX
        (computePanBounds s
          (clamp (s.committedScale * factor) cfg.minZoom cfg.maxZoom)).maxX) ∧
    ((pinchOnEnd cfg factor s).committedTranslateY =
      clamp s.committedTranslateY
        (computePanBounds s
          (clamp (s.committedScale * factor) cfg.minZoom cfg.maxZoom)).minY
        (computePanBounds s
          (clamp (s.committedScale * factor) cfg.minZoom cfg.maxZoom)).maxY) ∧
    ((pinchOnEnd ⟨1, 5⟩ 10 (initState ⟨1, 5⟩)).committedScale = 5) :=
  ⟨rfl, rfl, rfl, rfl, rfl, rfl, fun _ => rfl, rfl, rfl, rfl,
    by norm_num [pinchOnEnd, initState, computePanBounds, clamp, mathMin, mathMax]⟩

/-- C5: when a pan ends with committed scale above `minZoom + EPS`, the
committed translate per axis becomes
`clamp(clamp(baseline + delta, bounds) + velocity * 0.3, bounds)` with the
bounds taken at the committed scale. -/
theorem pan_end_inertia (cfg : Config) (s : ZoomState)
    (tx ty vx vy : ℚ) (h : cfg.minZoom + EPS < s.committedScale) :
    ((panOnEnd cfg tx ty vx vy s).committedTranslateX =
      clamp
        (clamp (s.panStartTranslateX + tx)
            (computePanBounds s s.committedScale).minX
            (computePanBounds s s.committedScale).maxX + vx * (3 / 10))
        (computePanBounds s s.committedScale).minX
        (computePanBounds s s.committedScale).maxX) ∧
    ((panOnEnd cfg tx ty vx vy s).committedTranslateY =
      clamp
        (clamp (s.panStartTranslateY + ty)
            (computePanBounds s s.committedScale).minY
            (computePanBounds s s.committedScale).maxY + vy * (3 / 10))
        (computePanBounds s s.committedScale).minY
        (computePanBounds s s.committedScale).maxY) := by
  unfold panOnEnd
  rw [if_neg (not_le.mpr h)]
  norm_num [INERTIA_PROJECTION_MS]

/-- Witness for C5: container 300 by 300, content 300 by 300, committed scale
3 reached by a pinch, baseline 0; releasing at `translationX = 500` with zero
velocity commits `translateX = 300`. -/
theorem pan_end_inertia_witness :
    ((⟨1, 5⟩ : Config).minZoom + EPS <
      (run ⟨1, 5⟩ [Event.containerLayout 300 300, Event.contentLayout 300 300,
        Event.pinchEnd 2 3, Event.panBegin]).committedScale) ∧
    (panOnEnd ⟨1, 5⟩ 500 0 0 0
      (run ⟨1, 5⟩ [Event.containerLayout 300 300, Event.contentLayout 300 300,
        Event.pinchEnd 2 3, Event.panBegin])).committedTranslateX = 300 := by
  have hs : ((⟨1, 5⟩ : Config).minZoom + EPS <
      (run ⟨1, 5⟩ [Event.containerLayout 300 300, Event.contentLayout 300 300,
        Event.pinchEnd 2 3, Event.panBegin]).committedScale) := by
    norm_num [run, step, onContainerLayout, onContentLayout, pinchOnEnd, panOnBegin,
      initState, computePanBounds, clamp, mathMin, mathMax, EPS]
  refine ⟨hs, ?_⟩
  rw [(pan_end_inertia ⟨1, 5⟩ _ 500 0 0 0 hs).1]
  norm_num [run, step, onContainerLayout, onContentLayout, pinchOnEnd, panOnBegin,
    initState, computePanBounds, clamp, mathMin, mathMax]

/-- C6: while the committed scale is at or below `minZoom + EPS`, a pan
update leaves the whole state unchanged, and a pan end forces both the
committed and the live translate to the origin regardless of delta and
velocity. -/
theorem pan_guard_min_zoom (cfg : Config) (s : ZoomState)
    (tx ty vx vy : ℚ) (h : s.committedScale ≤ cfg.minZoom + EPS) :
    panOnUpdate cfg tx ty s = s ∧
    (panOnEnd cfg tx ty vx vy s).committedTranslateX = 0 ∧
    (panOnEnd cfg tx ty vx vy s).committedTranslateY = 0 ∧
    (panOnEnd cfg tx ty vx vy s).liveTranslateX = 0 ∧
    (panOnEnd cfg tx ty vx vy s).liveTranslateY = 0 := by
  refine ⟨?_, ?_, ?_, ?_, ?_⟩
  · unfold panOnUpdate
    rw [if_pos h]
  all_goals
    unfold panOnEnd
    rw [if_pos h]

/-- Witness for C6 at the initial state of the default configuration. -/
theorem pan_guard_min_zoom_witness :
    ((initState ⟨1, 5⟩).committedScale ≤ (⟨1, 5⟩ : Config).minZoom + EPS) ∧
    panOnUpdate ⟨1, 5⟩ 50 60 (initState ⟨1, 5⟩) = initState ⟨1, 5⟩ ∧
    (panOnEnd ⟨1, 5⟩ 50 60 700 800 (initState ⟨1, 5⟩)).committedTranslateX = 0 ∧
    (panOnEnd ⟨1, 5⟩ 50 60 700 800 (initState ⟨1, 5⟩)).committedTranslateY = 0 ∧
    (panOnEnd ⟨1, 5⟩ 50 60 700 800 (initState ⟨1, 5⟩)).liveTranslateX = 0 ∧
    (panOnEnd ⟨1, 5⟩ 50 60 700 800 (initState ⟨1, 5⟩)).liveTranslateY = 0 :=
  ⟨by norm_num [initState, EPS],
    pan_guard_min_zoom ⟨1, 5⟩ (initState ⟨1, 5⟩) 50 60 700 800
      (by norm_num [initState, EPS])⟩

/-- C7 counterexample: after a successful double-tap has started its snap
animation, a pan begin leaves that animation in flight, and the following
pan update writes a live translate while the animation is still in flight. -/
theorem pan_begin_keeps_animation_counterexample :
    ((run ⟨1, 5⟩ [Event.containerLayout 300 300, Event.contentLayout 300 300,
      Event.doubleTap true none none, Event.panBegin]).lastParallel ≠ none) ∧
    ((step ⟨1, 5⟩ (run ⟨1, 5⟩ [Event.containerLayout 300 300,
        Event.contentLayout 300 300, Event.doubleTap true none none,
        Event.panBegin]) (Event.panUpdate 50 0)).liveTranslateX ≠
      (run ⟨1, 5⟩ [Event.containerLayout 300 300, Event.contentLayout 300 300,
        Event.doubleTap true none none, Event.panBegin]).liveTranslateX) := by
  constructor
  · norm_num [run, step, onContainerLayout, onContentLayout, doubleTapOnEnd,
      panOnBegin, initState, stopAnimations, getTargetScale, computePanBounds,
      clamp, mathMin, mathMax, mathAbs, EPS]
    exact Option.some_ne_none _
  · norm_num [run, step, onContainerLayout, onContentLayout, doubleTapOnEnd,
      panOnBegin, panOnUpdate, initState, stopAnimations, getTargetScale,
      computePanBounds, clamp, mathMin, mathMax, mathAbs, EPS]

/-- C7 (amended): a pinch start with two pointers stops and discards any
in-flight animation and changes nothing else; a successful double-tap first
discards any in-flight animation, so its outcome is that of the handler run
on the animation-free state; but a pan begin does not cancel an in-flight
animation — it only snapshots the pan baseline. -/
theorem gesture_start_animation_policy (cfg : Config) (s : ZoomState)
    (x y : Option ℚ) :
    pinchOnStart 2 s = stopAnimations s ∧
    (panOnBegin s).lastParallel = s.lastParallel ∧
    doubleTapOnEnd cfg true x y s = doubleTapOnEnd cfg true x y (stopAnimations s) :=
  ⟨rfl, rfl, rfl⟩

/-- C8 counterexample: a pinch end event with a single pointer still mutates
the state — at the default configuration from the initial state it commits
scale 2. -/
theorem pinch_end_ignores_pointer_count_counterexample :
    (step ⟨1, 5⟩ (initState ⟨1, 5⟩) (Event.pinchEnd 1 2)).committedScale ≠
      (initState ⟨1, 5⟩).committedScale := by
  norm_num [step, pinchOnEnd, initState, computePanBounds, clamp, mathMin, mathMax]

/-- C8 (amended): pinch start and update events with a pointer count other
than 2 cause no state mutation, while a pinch end event is processed
identically whatever its pointer count — the end handler ignores it. -/
theorem pinch_pointer_guard (cfg : Config) (s : ZoomState) (pointers : ℕ)
    (factor : ℚ) (h : pointers ≠ 2) :
    step cfg s (Event.pinchStart pointers) = s ∧
    step cfg s (Event.pinchUpdate pointers factor) = s ∧
    ∀ p2 : ℕ, step cfg s (Event.pinchEnd pointers factor) =
      step cfg s (Event.pinchEnd p2 factor) := by
  refine ⟨?_, ?_, fun p2 => rfl⟩
  · simp [step, pinchOnStart, h]
  · simp [step, pinchOnUpdate, h]

/-- Witness for C8 (amended) with three pointers. -/
theorem pinch_pointer_guard_witness :
    ((3 : ℕ) ≠ 2) ∧
    step ⟨1, 5⟩ (initState ⟨1, 5⟩) (Event.pinchStart 3) = initState ⟨1, 5⟩ ∧
    step ⟨1, 5⟩ (initState ⟨1, 5⟩) (Event.pinchUpdate 3 2) = initState ⟨1, 5⟩ ∧
    ∀ p2 : ℕ, step ⟨1, 5⟩ (initState ⟨1, 5⟩) (Event.pinchEnd 3 2) =
      step ⟨1, 5⟩ (initState ⟨1, 5⟩) (Event.pinchEnd p2 2) :=
  ⟨by norm_num,
    pinch_pointer_guard ⟨1, 5⟩ (initState ⟨1, 5⟩) 3 2 (by norm_num)⟩

attribute [ext] ZoomState

/-- Re-clamping over the same nonempty bounds is the identity. -/
lemma clamp_clamp (v lo hi lo2 hi2 : ℚ) (hlo : lo2 = lo) (hhi : hi2 = hi)
    (h : lo ≤ hi) : clamp (clamp v lo hi) lo2 hi2 = clamp v lo hi := by
  rw [hlo, hhi]
  exact clamp_idem v lo hi h

lemma onContainerLayout_committedScale (w h : ℚ) (s : ZoomState) :
    (onContainerLayout w h s).committedScale = s.committedScale := rfl

lemma onContainerLayout_committedTranslateX (w h : ℚ) (s : ZoomState) :
    (onContainerLayout w h s).committedTranslateX =
      clamp s.committedTranslateX
        (computePanBounds (onContainerLayout w h s) s.committedScale).minX
        (computePanBounds (onContainerLayout w h s) s.committedScale).maxX := rfl

lemma onContainerLayout_committedTranslateY (w h : ℚ) (s : ZoomState) :
    (onContainerLayout w h s).committedTranslateY =
      clamp s.committedTranslateY
        (computePanBounds (onContainerLayout w h s) s.committedScale).minY
        (computePanBounds (onContainerLayout w h s) s.committedScale).maxY := rfl

lemma onContainerLayout_liveTranslateX (w h : ℚ) (s : ZoomState) :
    (onContainerLayout w h s).liveTranslateX =
      (onContainerLayout w h s).committedTranslateX := rfl

lemma onContainerLayout_liveTranslateY (w h : ℚ) (s : ZoomState) :
    (onContainerLayout w h s).liveTranslateY =
      (onContainerLayout w h s).committedTranslateY := rfl

lemma onContentLayout_committedScale (w h : ℚ) (s : ZoomState) :
    (onContentLayout w h s).committedScale = s.committedScale := rfl

lemma onContentLayout_committedTranslateX (w h : ℚ) (s : ZoomState) :
    (onContentLayout w h s).committedTranslateX =
      clamp s.committedTranslateX
        (computePanBounds (onContentLayout w h s) s.committedScale).minX
        (computePanBounds (onContentLayout w h s) s.committedScale).maxX := rfl

lemma onContentLayout_committedTranslateY (w h : ℚ) (s : ZoomState) :
    (onContentLayout w h s).committedTranslateY =
      clamp s.committedTranslateY
        (computePanBounds (onContentLayout w h s) s.committedScale).minY
        (computePanBounds (onContentLayout w h s) s.committedScale).maxY := rfl

lemma onContentLayout_liveTranslateX (w h : ℚ) (s : ZoomState) :
    (onContentLayout w h s).liveTranslateX =
      (onContentLayout w h s).committedTranslateX := rfl

lemma onContentLayout_liveTranslateY (w h : ℚ) (s : ZoomState) :
    (onContentLayout w h s).liveTranslateY =
      (onContentLayout w h s).committedTranslateY := rfl

lemma onContainerLayout_idem (w h : ℚ) (s : ZoomState) :
    onContainerLayout w h (onContainerLayout w h s) = onContainerLayout w h s := by
  have hb : computePanBounds (onContainerLayout w h (onContainerLayout w h s))
        ((onContainerLayout w h s).committedScale)
      = computePanBounds (onContainerLayout w h s)
        ((onContainerLayout w h s).committedScale) :=
    computePanBounds_congr (onContainerLayout w h s)
      (onContainerLayout w h (onContainerLayout w h s)) _ rfl rfl rfl rfl
  have hX : (onContainerLayout w h (onContainerLayout w h s)).committedTranslateX
      = (onContainerLayout w h s).committedTranslateX := by
    rw [onContainerLayout_committedTranslateX w h (onContainerLayout w h s), hb,
      onContainerLayout_committedTranslateX w h s,
      onContainerLayout_committedScale w h s]
    exact clamp_idem _ _ _ (computePanBounds_minX_le_maxX _ _)
  have hY : (onContainerLayout w h (onContainerLayout w h s)).committedTranslateY
      = (onContainerLayout w h s).committedTranslateY := by
    rw [onContainerLayout_committedTranslateY w h (onContainerLayout w h s), hb,
      onContainerLayout_committedTranslateY w h s,
      onContainerLayout_committedScale w h s]
    exact clamp_idem _ _ _ (computePanBounds_minY_le_maxY _ _)
  ext
  case committedScale => rfl
  case committedTranslateX => exact hX
  case committedTranslateY => exact hY
  case liveScale => rfl
  case liveTranslateX =>
    rw [onContainerLayout_liveTranslateX w h (onContainerLayout w h s),
      onContainerLayout_liveTranslateX w h s]
    exact hX
  case liveTranslateY =>
    rw [onContainerLayout_liveTranslateY w h (onContainerLayout w h s),
      onContainerLayout_liveTranslateY w h s]
    exact hY
  case containerWidthPx => rfl
  case containerHeightPx => rfl
  case contentWidthPx => rfl
  case contentHeightPx => rfl
  case panStartTranslateX => rfl
  case panStartTranslateY => rfl
  case lastParallel => rfl

lemma onContentLayout_idem (w h : ℚ) (s : ZoomState) :
    onContentLayout w h (onContentLayout w h s) = onContentLayout w h s := by
  have hb : computePanBounds (onContentLayout w h (onContentLayout w h s))
        ((onContentLayout w h s).committedScale)
      = computePanBounds (onContentLayout w h s)
        ((onContentLayout w h s).committedScale) :=
    computePanBounds_congr (onContentLayout w h s)
      (onContentLayout w h (onContentLayout w h s)) _ rfl rfl rfl rfl
  have hX : (onContentLayout w h (onContentLayout w h s)).committedTranslateX
      = (onContentLayout w h s).committedTranslateX := by
    rw [onContentLayout_committedTranslateX w h (onContentLayout w h s), hb,
      onContentLayout_committedTranslateX w h s,
      onContentLayout_committedScale w h s]
    exact clamp_idem _ _ _ (computePanBounds_minX_le_maxX _ _)
  have hY : (onContentLayout w h (onContentLayout w h s)).committedTranslateY
      = (onContentLayout w h s).committedTranslateY := by
    rw [onContentLayout_committedTranslateY w h (onContentLayout w h s), hb,
      onContentLayout_committedTranslateY w h s,
      onContentLayout_committedScale w h s]
    exact clamp_idem _ _ _ (computePanBounds_minY_le_maxY _ _)
  ext
  case committedScale => rfl
  case committedTranslateX => exact hX
  case committedTranslateY => exact hY
  case liveScale => rfl
  case liveTranslateX =>
    rw [onContentLayout_liveTranslateX w h (onContentLayout w h s),
      onContentLayout_liveTranslateX w h s]
    exact hX
  case liveTranslateY =>
    rw [onContentLayout_liveTranslateY w h (onContentLayout w h s),
      onContentLayout_liveTranslateY w h s]
    exact hY
  case containerWidthPx => rfl
  case containerHeightPx => rfl
  case contentWidthPx => rfl
  case contentHeightPx => rfl
  case panStartTranslateX => rfl
  case panStartTranslateY => rfl
  case lastParallel => rfl

/-- C9: reporting the same container size twice in a row, and likewise the
same content size twice in a row, is idempotent — the full committed and
live state after the second report equals the state after the first
(bounds are re-derived from the stored sizes on every report, so the second
re-clamp is the identity). -/
theorem layout_report_idempotent (w h : ℚ) (s : ZoomState) :
    onContainerLayout w h (onContainerLayout w h s) = onContainerLayout w h s ∧
    onContentLayout w h (onContentLayout w h s) = onContentLayout w h s :=
  ⟨onContainerLayout_idem w h s, onContentLayout_idem w h s⟩

/-- C10: no pan event (begin, update or end) and no container or content
size report ever changes the committed scale or the live scale. -/
theorem pan_layout_preserve_scale (cfg : Config) (s : ZoomState)
    (w h tx ty vx vy : ℚ) :
    ((onContainerLayout w h s).committedScale = s.committedScale) ∧
    ((onContainerLayout w h s).liveScale = s.liveScale) ∧
    ((onContentLayout w h s).committedScale = s.committedScale) ∧
    ((onContentLayout w h s).liveScale = s.liveScale) ∧
    ((panOnBegin s).committedScale = s.committedScale) ∧
    ((panOnBegin s).liveScale = s.liveScale) ∧
    ((panOnUpdate cfg tx ty s).committedScale = s.committedScale) ∧
    ((panOnUpdate cfg tx ty s).liveScale = s.liveScale) ∧
    ((panOnEnd cfg tx ty vx vy s).committedScale = s.committedScale) ∧
    ((panOnEnd cfg tx ty vx vy s).liveScale = s.liveScale) := by
  refine ⟨rfl, rfl, rfl, rfl, rfl, rfl, ?_, ?_, ?_, ?_⟩ <;>
    first
      | (unfold panOnUpdate; split <;> rfl)
      | (unfold panOnEnd; split <;> rfl)
